import Mathlib

/-!
Verification of the memote quality-control suite specification against a
shallow embedding of the repository sources
(src/memote/suite/tests/test_basic.py, src/memote/suite/tests/test_biomass.py,
src/memote/support/syntax.py).

Conventions of the embedding:
* Python floats are embedded as exact rationals.
* The cobra model object is external to the repository; it is embedded as a
  record exposing exactly the query operations the sources use
  (reaction list, metabolite list, gene list, the exchange-reaction query,
  and the FBA solver as a black-box function, per spec section 1).
* Fallible code returns Except or Option; ZeroDivisionError is `none`.
* Definitions whose source lives in repository modules absent from src/
  (memote.support.basic, memote.support.biomass, memote.support.helpers,
  memote.utils) carry a doc comment starting with `Modelled from the spec:`.
-/

/-- A metabolite of the external cobra model (spec section 3): identifier,
nullable chemical formula, single-letter compartment tag, and the molar mass
derived from the formula (derivation is external, so the mass is a field). -/
structure Metabolite where
  id : String
  formula : Option String
  compartment : Char
  molarMass : ℚ
deriving DecidableEq, Repr, Inhabited

/-- A reaction of the external cobra model (spec section 3): identifier,
stoichiometry (negative coefficient = consumed, positive = produced), and
lower/upper flux bounds. -/
structure Reaction where
  id : String
  mets : List (Metabolite × ℚ)
  lowerBound : ℚ
  upperBound : ℚ
deriving DecidableEq, Repr, Inhabited

/-- The compartment set of a reaction: the union of the compartments of its
metabolites (spec section 3 invariant; cobra `Reaction.compartments`). -/
def Reaction.compartments (r : Reaction) : Finset Char :=
  (r.mets.map fun p => p.1.compartment).toFinset

/-- The external cobra model, reduced to the query surface the sources use.
`exchangeIds` records which reactions the external `model.exchanges` query
reports (a black-box selection); `fba` is the black-box solver: it returns the
optimal objective value when the named reaction is set as objective on the
default medium (spec section 4.1, `run_fba`). -/
structure Model where
  idAttr : Option String
  reactions : List Reaction
  metabolites : List Metabolite
  genes : List String
  exchangeIds : List String
  fba : String → ℚ

/-- `model.exchanges`: the reaction objects of the model that the external
exchange query reports. -/
def Model.exchanges (m : Model) : List Reaction :=
  m.reactions.filter fun r => decide (r.id ∈ m.exchangeIds)

/- ------------------------------------------------------------------ -/
/- C1: growth-rate bound checks (src/memote/suite/tests/test_biomass.py) -/

/-- `test_biomass_default_production` (test_biomass.py lines 77-88): the check
passes exactly when `assert ann["data"][reaction_id] > 0.0` holds, where the
data is `helpers.run_fba(model, reaction_id)`. -/
def test_biomass_default_production_passes (m : Model) (rid : String) : Bool :=
  decide (0 < m.fba rid)

/-- `test_fast_growth_default` (test_biomass.py lines 144-159): the check
passes exactly when `assert ann["data"][reaction_id] <= 10.3972` holds. -/
def test_fast_growth_default_passes (m : Model) (rid : String) : Bool :=
  decide (m.fba rid ≤ 103972 / 10000)

/- ------------------------------------------------------------------ -/
/- C9: exchange/demand tagging (src/memote/support/syntax.py lines 244-303) -/

/-- Embedding of Python `str.startswith`, phrased on the character lists so
that it evaluates by kernel reduction. -/
def strStartsWith (s p : String) : Bool :=
  s.data.take p.data.length == p.data

/-- `find_untagged_exchange_rxns` (syntax.py lines 276-303): reactions of
`model.exchanges` with `'e' in rxn.compartments` and an id not starting with
"EX_". -/
def find_untagged_exchange_rxns (m : Model) : List Reaction :=
  m.exchanges.filter fun r =>
    decide ('e' ∈ r.compartments) && !(strStartsWith r.id "EX_")

/-- `find_untagged_demand_rxns` (syntax.py lines 244-273): reactions of
`model.exchanges` with `'e' not in rxn.compartments` and an id not starting
with "DM_". -/
def find_untagged_demand_rxns (m : Model) : List Reaction :=
  m.exchanges.filter fun r =>
    !(decide ('e' ∈ r.compartments)) && !(strStartsWith r.id "DM_")

/-- The set described by the specification words for the exchange half of the
claim: exchange reactions touching only the extracellular compartment whose
identifier does not begin with "EX_" (refinement comparison definition). -/
def spec_untagged_exchange_rxns (m : Model) : List Reaction :=
  m.exchanges.filter fun r =>
    decide (r.compartments = {'e'}) && !(strStartsWith r.id "EX_")

/-- The set described by the specification words for the demand half of the
claim: demand reactions touching a non-extracellular compartment whose
identifier does not begin with "DM_" (refinement comparison definition). -/
def spec_untagged_demand_rxns (m : Model) : List Reaction :=
  m.exchanges.filter fun r =>
    decide (∃ c ∈ r.compartments, c ≠ 'e') && !(strStartsWith r.id "DM_")

/- concrete input used to separate the code from the spec words for C9:
a boundary reaction consuming one cytosolic and one extracellular metabolite,
reported by the external exchange query. -/

def c9met_c : Metabolite := ⟨"x_c", none, 'c', 0⟩
def c9met_e : Metabolite := ⟨"y_e", none, 'e', 0⟩

def c9rxn : Reaction := ⟨"BD_xy", [(c9met_c, -1), (c9met_e, -1)], 0, 1000⟩

def c9Model : Model :=
  ⟨some "c9", [c9rxn], [c9met_c, c9met_e], [], ["BD_xy"], fun _ => 0⟩

/-- C1: for every biomass reaction taken as the FBA objective on the default
medium, the default-production check passes exactly when the computed rate is
strictly positive, the fast-growth check passes exactly when the rate is at
most 10.3972, and hence both pass exactly when the rate lies in the interval
(0, 10.3972]. -/
theorem C1_growth_rate_bounds (m : Model) (rid : String) :
    (test_biomass_default_production_passes m rid = true ↔ 0 < m.fba rid) ∧
    (test_fast_growth_default_passes m rid = true ↔ m.fba rid ≤ 103972 / 10000) ∧
    ((test_biomass_default_production_passes m rid = true ∧
        test_fast_growth_default_passes m rid = true) ↔
      m.fba rid ∈ Set.Ioc (0 : ℚ) (103972 / 10000)) := by
  simp [test_biomass_default_production_passes, test_fast_growth_default_passes,
    Set.mem_Ioc]

/-- C9 counterexample: on a model whose exchange query reports a reaction
touching both the cytosol and the extracellular compartment, the function
`find_untagged_exchange_rxns` returns that reaction although it does not touch
only the extracellular compartment, so the returned list differs from the set
described by the claim. -/
theorem C9_counterexample :
    find_untagged_exchange_rxns c9Model ≠ spec_untagged_exchange_rxns c9Model ∧
    find_untagged_demand_rxns c9Model ≠ spec_untagged_demand_rxns c9Model := by
  decide

/-- C9 amended: `find_untagged_exchange_rxns` returns exactly the reactions of
the exchange query whose compartment set contains the extracellular
compartment and whose identifier does not begin with "EX_";
`find_untagged_demand_rxns` returns exactly the reactions of the exchange
query whose compartment set does not contain the extracellular compartment and
whose identifier does not begin with "DM_". -/
theorem C9_amended_membership (m : Model) (r : Reaction) :
    (r ∈ find_untagged_exchange_rxns m ↔
      r ∈ m.exchanges ∧ 'e' ∈ r.compartments ∧ strStartsWith r.id "EX_" = false) ∧
    (r ∈ find_untagged_demand_rxns m ↔
      r ∈ m.exchanges ∧ 'e' ∉ r.compartments ∧ strStartsWith r.id "DM_" = false) := by
  constructor <;>
    simp [find_untagged_exchange_rxns, find_untagged_demand_rxns,
      List.mem_filter, and_assoc]

/- ------------------------------------------------------------------ -/
/- C3: division-by-zero in ratio metrics (test_basic.py lines 80-96,
   160-177) -/

/-- Python division on rationals: raising ZeroDivisionError is `none`. -/
def pyDiv (a b : ℚ) : Option ℚ :=
  if b = 0 then none else some (a / b)

/-- Modelled from the spec: `check_metabolites_formula_presence` lives in
`memote.support.basic`, which is absent from src/. Spec section 4.2 table:
offending metabolites are those whose "metabolite formula is empty/missing". -/
def check_metabolites_formula_presence (m : Model) : List Metabolite :=
  m.metabolites.filter fun met => decide (met.formula.getD "" = "")

/-- The metric computation of `test_metabolites_formula_presence`
(test_basic.py line 91): `len(ann["data"]) / len(read_only_model.metabolites)`
with Python division semantics. -/
def metabolites_formula_metric (m : Model) : Option ℚ :=
  pyDiv ((check_metabolites_formula_presence m).length : ℚ)
    ((m.metabolites.length : ℚ))

/-- Modelled from the spec: `calculate_metabolic_coverage` lives in
`memote.support.basic`, absent from src/. Spec section 4.2 table:
"reactions-count ÷ genes-count", with Python division semantics. -/
def calculate_metabolic_coverage (m : Model) : Option ℚ :=
  pyDiv ((m.reactions.length : ℚ)) ((m.genes.length : ℚ))

/-- A model with five reactions, zero genes and zero metabolites
(the failing input of spec section 8's divide-by-zero example). -/
def c3Model : Model :=
  ⟨some "c3",
   [⟨"R1", [], 0, 1⟩, ⟨"R2", [], 0, 1⟩, ⟨"R3", [], 0, 1⟩,
    ⟨"R4", [], 0, 1⟩, ⟨"R5", [], 0, 1⟩],
   [], [], [], fun _ => 0⟩

/-- C3 failing input, evaluated: on a model with zero metabolites the metric
line of `test_metabolites_formula_presence` divides by zero and the fault
propagates (`none` = ZeroDivisionError), and with zero genes the metabolic
coverage likewise divides by zero; no fallback value is produced. -/
theorem C3_divide_by_zero_fault :
    metabolites_formula_metric c3Model = none ∧
    calculate_metabolic_coverage c3Model = none := by
  decide

/- ------------------------------------------------------------------ -/
/- C2 and C5: biomass consistency check and the metadata record
   (test_biomass.py lines 61-74, test_basic.py lines 27-33) -/

/-- Modelled from the spec: `sum_biomass_weight` lives in
`memote.support.biomass`, absent from src/. Spec section 4.3: the sum of
absolute coefficient times molar mass over all metabolites with negative
coefficient (the consumed precursors). -/
def sum_biomass_weight (r : Reaction) : ℚ :=
  ((r.mets.filter fun p => decide (p.2 < 0)).map fun p =>
    |p.2| * p.1.molarMass).sum

/-- `numpy.isclose(a, b, rtol, atol)`:
`absolute(a - b) <= (atol + rtol * absolute(b))`. The call in
test_biomass.py line 73 passes `atol=1e-03` and leaves `rtol` at the numpy
default `1e-05`. -/
def np_isclose (a b rtol atol : ℚ) : Bool :=
  decide (|a - b| ≤ atol + rtol * |b|)

/-- Outcome of a check body: the final assertion passed, or an assertion (or
lookup error) raised with a message. -/
inductive CheckResult
  | passed
  | failed (msg : String)
deriving DecidableEq, Repr

/-- The structured metadata record that the `annotate` decorator attaches to a
scalar-data check. Modelled from the spec (section 4.5): `memote.utils` is
absent from src/; the record carries a title and placeholder data/message
fields (`none` = not yet populated), which the check body fills in place. -/
structure AnnRecord where
  title : String
  data : Option String
  message : Option String
deriving DecidableEq, Repr

/-- The metadata record of a per-biomass-reaction check: `data` and `message`
are dictionaries keyed by reaction id (test_biomass.py line 62-63
`data=dict(), message=dict()`). -/
structure BiomassAnnRecord where
  data : List (String × ℚ)
  message : List (String × String)
deriving DecidableEq, Repr

/-- The diagnostic message built at test_biomass.py lines 69-72. -/
def consistencyMessage (rid : String) (s : ℚ) : String :=
  "The component molar mass of the biomass reaction " ++ rid ++
    " sums up to " ++ toString s ++
    " which is outside of the 1e-03 margin from 1 mmol / g[CDW] / h."

/-- `test_biomass_consistency` (test_biomass.py lines 61-74) as a state
transformer on its metadata record: fetch the reaction
(`get_by_id`; a missing id raises), store the biomass weight sum under the
reaction id, store the message, then run the final assertion
`np.isclose(ann["data"][reaction_id], 1.0, atol=1e-03)`. -/
def test_biomass_consistency_run (m : Model) (rid : String)
    (ann : BiomassAnnRecord) : BiomassAnnRecord × CheckResult :=
  match m.reactions.find? fun r => decide (r.id = rid) with
  | none => (ann, .failed "get_by_id: unknown reaction identifier")
  | some r =>
    let s := sum_biomass_weight r
    let msg := consistencyMessage rid s
    let ann := { ann with data := (rid, s) :: ann.data,
                          message := (rid, msg) :: ann.message }
    (ann, if np_isclose s 1 (1 / 100000) (1 / 1000) then .passed
          else .failed msg)

/-- `test_model_id_presence` (test_basic.py lines 27-33) as a state
transformer: assert the id attribute exists (raising before any population if
it does not), store the id in `data`, then assert the id is truthy. The
`message` field is never written by this check. -/
def test_model_id_presence_run (m : Model) (ann : AnnRecord) :
    AnnRecord × CheckResult :=
  match m.idAttr with
  | none => (ann, .failed "assert hasattr(read_only_model, id)")
  | some i =>
    let ann := { ann with data := some i }
    (ann, if i = "" then .failed "assert bool(read_only_model.id)" else .passed)

/-- A biomass reaction whose precursor mass sum is 1.001005: the deviation
1.005e-3 exceeds the claimed absolute tolerance 1e-3, yet
`np.isclose(., 1.0, atol=1e-03)` accepts it because the default relative
tolerance contributes a further 1e-5. -/
def c2Rxn : Reaction :=
  ⟨"BIOMASS_c2", [(⟨"prec_c", some "X", 'c', 1001005 / 1000000⟩, -1)], 0, 1000⟩

def c2Model : Model :=
  ⟨some "c2", [c2Rxn], [⟨"prec_c", some "X", 'c', 1001005 / 1000000⟩], [], [],
   fun _ => 0⟩

/-- The `np.isclose(., 1.0, atol=1e-03)` acceptance condition, rewritten with
its tolerances combined: `atol + rtol * abs(1.0) = 1.01e-3`. -/
lemma np_isclose_one (s : ℚ) :
    np_isclose s 1 (1 / 100000) (1 / 1000) = true ↔
      |s - 1| ≤ 101 / 100000 := by
  unfold np_isclose
  rw [decide_eq_true_eq, abs_one]
  constructor <;> intro h <;> linarith

lemma c2_sum : sum_biomass_weight c2Rxn = 1001005 / 1000000 := by
  simp [sum_biomass_weight, c2Rxn]

lemma c2_dev : |sum_biomass_weight c2Rxn - 1| = 201 / 200000 := by
  rw [c2_sum, show (1001005 : ℚ) / 1000000 - 1 = 201 / 200000 by norm_num,
    abs_of_nonneg (by norm_num : (0 : ℚ) ≤ 201 / 200000)]

/-- C2 counterexample: the biomass-consistency check passes on a biomass
reaction whose precursor mass sum differs from 1.0 by more than the claimed
absolute tolerance 1e-3, so "passes exactly when the sum is within absolute
tolerance 1e-3 of 1.0" is false on the code. -/
theorem C2_counterexample :
    (test_biomass_consistency_run c2Model "BIOMASS_c2" ⟨[], []⟩).2 =
      CheckResult.passed ∧
    ¬ |sum_biomass_weight c2Rxn - 1| ≤ 1 / 1000 := by
  constructor
  · have hfind : (c2Model.reactions.find? fun x =>
        decide (x.id = "BIOMASS_c2")) = some c2Rxn := rfl
    have hcl : np_isclose (sum_biomass_weight c2Rxn) 1
        (1 / 100000) (1 / 1000) = true := by
      rw [np_isclose_one, c2_dev]; norm_num
    simp only [test_biomass_consistency_run, hfind, hcl, if_true]
  · rw [c2_dev]; norm_num

/-- C2 amended: for every biomass reaction present in the model, the
biomass-consistency check passes exactly when the precursor mass sum lies
within 1e-3 + 1e-5 (the numpy tolerance `atol + rtol * 1.0`) of 1.0. -/
theorem C2_amended_tolerance (m : Model) (rid : String) (r : Reaction)
    (ann : BiomassAnnRecord)
    (hr : (m.reactions.find? fun x => decide (x.id = rid)) = some r) :
    (test_biomass_consistency_run m rid ann).2 = CheckResult.passed ↔
      |sum_biomass_weight r - 1| ≤ 101 / 100000 := by
  rw [← np_isclose_one (sum_biomass_weight r)]
  simp only [test_biomass_consistency_run, hr]
  cases np_isclose (sum_biomass_weight r) 1 (1 / 100000) (1 / 1000) <;> simp

/-- C2 amended witness at a concrete input: the check passes on `c2Model`, and
indeed its mass sum is within 1.01e-3 of 1.0. -/
theorem C2_amended_tolerance_witness :
    (test_biomass_consistency_run c2Model "BIOMASS_c2" ⟨[], []⟩).2 =
      CheckResult.passed :=
  (C2_amended_tolerance c2Model "BIOMASS_c2" c2Rxn ⟨[], []⟩ rfl).mpr
    (by rw [c2_dev]; norm_num)

/- ------------------------------------------------------------------ -/
/- C5: population of the metadata record (test_basic.py lines 27-33,
   test_biomass.py lines 61-74) -/

def c5IdModel : Model := ⟨some "mdl", [], [], [], [], fun _ => 0⟩

/-- C5 counterexample: `test_model_id_presence` reaches and passes its final
assertion while its `message` field was never populated (the check writes only
`data`), so "data and message fields are populated before the check's final
assertion executes" is false for this check. -/
theorem C5_counterexample :
    (test_model_id_presence_run c5IdModel
        ⟨"Model Identifier", none, none⟩).2 = CheckResult.passed ∧
    (test_model_id_presence_run c5IdModel
        ⟨"Model Identifier", none, none⟩).1.message = none := by
  constructor <;> rfl

/-- C5 amended: the record is carried through the check and handed back on
both outcomes; the `data` field is populated before the final assertion
executes, and the `message` field too for checks that compose one (as
`test_biomass_consistency` does; `test_model_id_presence` writes only `data`).
Whether the final assertion passes or raises, the populated record is the one
retrievable afterwards. -/
theorem C5_amended_record_population (m : Model) (ann : AnnRecord)
    (rid : String) (bann : BiomassAnnRecord) :
    (∀ i, m.idAttr = some i →
      (test_model_id_presence_run m ann).1.data = some i) ∧
    (∀ r, (m.reactions.find? fun x => decide (x.id = rid)) = some r →
      (test_biomass_consistency_run m rid bann).1.data.lookup rid =
          some (sum_biomass_weight r) ∧
        (test_biomass_consistency_run m rid bann).1.message.lookup rid =
          some (consistencyMessage rid (sum_biomass_weight r))) := by
  constructor
  · intro i hi
    simp [test_model_id_presence_run, hi]
  · intro r hr
    simp only [test_biomass_consistency_run, hr]
    constructor <;> simp [List.lookup]

/-- C5 amended witness: on a model whose id attribute is "mdl", the data field
of the returned record is populated with "mdl". -/
theorem C5_amended_record_population_witness :
    (test_model_id_presence_run c5IdModel
        ⟨"Model Identifier", none, none⟩).1.data = some "mdl" :=
  (C5_amended_record_population c5IdModel ⟨"Model Identifier", none, none⟩
    "B" ⟨[], []⟩).1 "mdl" rfl

/- ------------------------------------------------------------------ -/
/- C7 and C10: find_mistagged_reaction_compartment
   (src/memote/support/syntax.py lines 46-86) -/

/-- The regexp match object of `build_reaction_pattern_map`, reduced to the
only part the source reads: the "suffix" group. -/
structure RMatch where
  suffix : String
deriving DecidableEq, Repr

/-- Embedding of the Python substring test `comp in suffix` for a single
character compartment symbol, phrased on character lists so that it evaluates
by kernel reduction. -/
def strContainsChar (s : String) (c : Char) : Bool :=
  s.data.contains c

/-- The body of the loop of `find_mistagged_reaction_compartment` (syntax.py
lines 70-85): an entry is appended to the offending list exactly when its
match is not None (`continue` otherwise), its compartment set is not exactly
the cytosol (`continue`), and no compartment occurs in the matched suffix. -/
def mistagged_keep (p : Reaction × Option RMatch) : Bool :=
  match p.2 with
  | none => false
  | some mt =>
    !(decide (p.1.compartments = {'c'})) &&
      !(decide (∃ c ∈ p.1.compartments, strContainsChar mt.suffix c = true))

/-- `find_mistagged_reaction_compartment` (syntax.py lines 46-86): iterate
over the reactions of the match map that are not transport reactions and
collect the ones the loop body appends. -/
def find_mistagged_reaction_compartment
    (reactionMatch : List (Reaction × Option RMatch))
    (transport : List Reaction) : List Reaction :=
  ((reactionMatch.filter fun p => decide (p.1 ∉ transport)).filter
      mistagged_keep).map Prod.fst

def c7met : Metabolite := ⟨"m_e", none, 'e', 0⟩

/-- A reaction whose identifier does not match the convention pattern at all:
its entry in the match map is `none`. -/
def c7rxn : Reaction := ⟨"oddname", [(c7met, -1)], 0, 1000⟩

/-- C7 counterexample: a reaction whose match entry is null is skipped by the
`continue` at syntax.py line 76 and therefore does not appear in the offending
list the check returns, contradicting "that reaction contributes to the
offending set of convention violations returned by the check". -/
theorem C7_counterexample :
    c7rxn ∉ find_mistagged_reaction_compartment [(c7rxn, none)] [] := by
  decide

/-- C7 amended: a reaction whose entry in the reaction-pattern map is null
does not abort the run (it is only logged and skipped) and is excluded from
the offending set returned by the compartment-suffix consistency check. -/
theorem C7_amended_null_match_skipped
    (rm : List (Reaction × Option RMatch)) (transport : List Reaction)
    (r : Reaction) (hk : (rm.map Prod.fst).Nodup) (hr : (r, none) ∈ rm) :
    r ∉ find_mistagged_reaction_compartment rm transport := by
  intro hmem
  unfold find_mistagged_reaction_compartment at hmem
  rcases List.mem_map.1 hmem with ⟨p, hp, hfst⟩
  rcases List.mem_filter.1 hp with ⟨hp1, hkeep⟩
  rcases List.mem_filter.1 hp1 with ⟨hpin, -⟩
  have hpr : p = (r, none) :=
    List.inj_on_of_nodup_map hk hpin hr (by simpa using hfst)
  rw [hpr] at hkeep
  simp [mistagged_keep] at hkeep

def c7bmet : Metabolite := ⟨"n_p", none, 'p', 0⟩

def c7brxn : Reaction := ⟨"anothername", [(c7bmet, 1)], 0, 500⟩

/-- C7 amended witness at a concrete input. -/
theorem C7_amended_null_match_skipped_witness :
    c7brxn ∉ find_mistagged_reaction_compartment [(c7brxn, none)] [] :=
  C7_amended_null_match_skipped [(c7brxn, none)] [] c7brxn
    (by decide) (by decide)

/-- C10: a reaction whose compartment set is exactly the cytosol is skipped by
the `continue` at syntax.py lines 77-79 before the suffix is even inspected,
so it never appears in the returned offending list. -/
theorem C10_cytosolic_not_flagged
    (rm : List (Reaction × Option RMatch)) (transport : List Reaction)
    (r : Reaction) (hc : r.compartments = {'c'}) :
    r ∉ find_mistagged_reaction_compartment rm transport := by
  intro hmem
  unfold find_mistagged_reaction_compartment at hmem
  rcases List.mem_map.1 hmem with ⟨p, hp, hfst⟩
  rcases List.mem_filter.1 hp with ⟨-, hkeep⟩
  cases hp2 : p.2 with
  | none => simp [mistagged_keep, hp2] at hkeep
  | some mt => simp [mistagged_keep, hp2, hfst, hc] at hkeep

def c10met : Metabolite := ⟨"q_c", none, 'c', 0⟩

/-- A purely cytosolic reaction whose matched suffix "_e" names a compartment
the reaction does not occupy. -/
def c10rxn : Reaction := ⟨"QRXN_e", [(c10met, -1)], 0, 1000⟩

/-- C10 witness: the cytosolic reaction is not flagged even though its suffix
names no compartment it occupies. -/
theorem C10_cytosolic_not_flagged_witness :
    c10rxn ∉ find_mistagged_reaction_compartment [(c10rxn, some ⟨"_e"⟩)] [] :=
  C10_cytosolic_not_flagged [(c10rxn, some ⟨"_e"⟩)] [] c10rxn (by decide)

/- ------------------------------------------------------------------ -/
/- C8: unique metabolites (test_basic.py lines 231-241) -/

/-- Modelled from the spec: `find_unique_metabolites` lives in
`memote.support.basic`, absent from src/. Spec section 4.2 table: the
metabolite identifiers "with compartment suffix stripped and deduplicated".
The compartment suffix of a metabolite is an underscore followed by its
single-letter compartment tag. -/
def strippedId (met : Metabolite) : String :=
  if met.id.data.drop (met.id.data.length - 2) == ['_', met.compartment]
  then ⟨met.id.data.take (met.id.data.length - 2)⟩ else met.id

/-- Modelled from the spec (section 4.2): the deduplicated list of stripped
metabolite identifiers. -/
def find_unique_metabolites (m : Model) : List String :=
  (m.metabolites.map strippedId).dedup

/-- `test_find_unique_metabolites` (test_basic.py lines 231-241): the check
passes exactly when
`assert len(ann["data"]) < len(read_only_model.metabolites)` holds. -/
def test_find_unique_metabolites_passes (m : Model) : Bool :=
  decide ((find_unique_metabolites m).length < m.metabolites.length)

/-- C8: if some metabolite exists in more than one compartment (two model
metabolites share a stripped identifier but sit in different compartments),
then the deduplicated stripped count is strictly smaller than the raw
metabolite count, and the unique-metabolites check passes exactly when that
strict inequality holds. -/
theorem C8_unique_metabolites (m : Model)
    (h : ∃ a ∈ m.metabolites, ∃ b ∈ m.metabolites,
      strippedId a = strippedId b ∧ a.compartment ≠ b.compartment) :
    (find_unique_metabolites m).length < m.metabolites.length ∧
    (test_find_unique_metabolites_passes m = true ↔
      (find_unique_metabolites m).length < m.metabolites.length) := by
  have hlt : (find_unique_metabolites m).length < m.metabolites.length := by
    obtain ⟨a, ha, b, hb, hs, hcmp⟩ := h
    have hne : a ≠ b := fun he => hcmp (he ▸ rfl)
    have hnd : ¬ (m.metabolites.map strippedId).Nodup := fun hnd =>
      hne (List.inj_on_of_nodup_map hnd ha hb hs)
    have hsub : List.Sublist ((m.metabolites.map strippedId).dedup)
        (m.metabolites.map strippedId) :=
      List.dedup_sublist _
    have hlen := hsub.length_le
    have hneq : ((m.metabolites.map strippedId).dedup).length ≠
        (m.metabolites.map strippedId).length := by
      intro he
      exact hnd (hsub.eq_of_length he ▸ List.nodup_dedup _)
    have := lt_of_le_of_ne hlen hneq
    simpa [find_unique_metabolites, List.length_map] using this
  exact ⟨hlt, by simp [test_find_unique_metabolites_passes]⟩

def c8m1 : Metabolite := ⟨"atp_c", some "C10H12N5O13P3", 'c', 1⟩
def c8m2 : Metabolite := ⟨"atp_e", some "C10H12N5O13P3", 'e', 1⟩

def c8Model : Model := ⟨some "c8", [], [c8m1, c8m2], [], [], fun _ => 0⟩

/-- C8 witness: a model carrying atp in both the cytosol and the
extracellular compartment. -/
theorem C8_unique_metabolites_witness :
    (find_unique_metabolites c8Model).length < c8Model.metabolites.length ∧
    (test_find_unique_metabolites_passes c8Model = true ↔
      (find_unique_metabolites c8Model).length <
        c8Model.metabolites.length) :=
  C8_unique_metabolites c8Model (by decide)

/- ------------------------------------------------------------------ -/
/- C4: scoped bound widening is reverted on every exit path
   (test_biomass.py lines 109-127) -/

/-- Assignment `reaction.bounds = (lb, ub)` addressed by reaction id. -/
def setRxnBounds (rxns : List Reaction) (rid : String) (lb ub : ℚ) :
    List Reaction :=
  rxns.map fun r =>
    if r.id = rid then { r with lowerBound := lb, upperBound := ub } else r

/-- Read the bounds of the reaction with the given id, if present. -/
def boundsOf (rxns : List Reaction) (rid : String) : Option (ℚ × ℚ) :=
  (rxns.find? fun r => decide (r.id = rid)).map fun r =>
    (r.lowerBound, r.upperBound)

/-- One iteration of `for exchange in model.exchanges:
exchange.bounds = (-1000, 1000)` inside `with model:`: the history manager of
the scoped-mutation context records the previous bounds on an undo stack
before the assignment is applied. -/
def widenStep (acc : List Reaction × List (String × ℚ × ℚ)) (rid : String) :
    List Reaction × List (String × ℚ × ℚ) :=
  match boundsOf acc.1 rid with
  | none => acc
  | some p => (setRxnBounds acc.1 rid (-1000) 1000, (rid, p) :: acc.2)

/-- Exiting the `with model:` scope: replay the undo stack, most recent
assignment first, on every exit path. -/
def applyUndo (stack : List (String × ℚ × ℚ)) (rxns : List Reaction) :
    List Reaction :=
  stack.foldl (fun rs u => setRxnBounds rs u.1 u.2.1 u.2.2) rxns

/-- `test_biomass_precursors_open_production` (test_biomass.py lines 109-127):
inside the scoped-mutation context every exchange reaction's bounds are set to
(-1000, 1000); the body (`find_blocked_biomass_precursors`, abstracted as the
fallible `blockedOf`) runs on the widened model; the scope exit replays the
undo stack whether or not the body raised; the final assertion
(`len(data) == 0`) happens outside the scope. Returns the final model and the
check outcome. -/
def openProductionCheck (m : Model) (rid : String)
    (blockedOf : Model → String → Except String (List String)) :
    Model × Except String Bool :=
  let st := (m.exchanges.map Reaction.id).foldl widenStep (m.reactions, [])
  let res := blockedOf { m with reactions := st.1 } rid
  ({ m with reactions := applyUndo st.2 st.1 },
   res.map fun data => decide (data.length = 0))

lemma setRxnBounds_map_id (rxns : List Reaction) (rid : String) (lb ub : ℚ) :
    (setRxnBounds rxns rid lb ub).map Reaction.id = rxns.map Reaction.id := by
  unfold setRxnBounds
  rw [List.map_map]
  apply List.map_congr_left
  intro r _
  by_cases h : r.id = rid <;> simp [h]

lemma set_set_restore (rxns : List Reaction) (rid : String) (a b lb ub : ℚ)
    (hnd : (rxns.map Reaction.id).Nodup)
    (hfound : boundsOf rxns rid = some (lb, ub)) :
    setRxnBounds (setRxnBounds rxns rid a b) rid lb ub = rxns := by
  obtain ⟨r0, hfind, hval⟩ : ∃ r0,
      (rxns.find? fun r => decide (r.id = rid)) = some r0 ∧
        (r0.lowerBound, r0.upperBound) = (lb, ub) := by
    unfold boundsOf at hfound
    cases hf : rxns.find? fun r => decide (r.id = rid) with
    | none => rw [hf] at hfound; simp at hfound
    | some r0 =>
      rw [hf] at hfound
      simp at hfound
      exact ⟨r0, rfl, by rw [hfound.1, hfound.2]⟩
  have hr0mem : r0 ∈ rxns := List.mem_of_find?_eq_some hfind
  have hr0id : r0.id = rid := by
    have := List.find?_some hfind
    simpa using this
  unfold setRxnBounds
  rw [List.map_map]
  conv_rhs => rw [← List.map_id rxns]
  apply List.map_congr_left
  intro r hr
  by_cases h : r.id = rid
  · have hrr0 : r = r0 :=
      List.inj_on_of_nodup_map hnd hr hr0mem (by rw [h, hr0id])
    subst hrr0
    injection hval with h1 h2
    subst h1
    subst h2
    subst h
    cases r
    simp [Function.comp]
  · simp [Function.comp, h]

/-- Replaying the undo stack after any run of widening steps restores the
initial reaction list, provided reaction identifiers are unique (cobra
enforces unique reaction ids). -/
lemma foldl_widen_restore (ids : List String) :
    ∀ (rxns : List Reaction) (stack : List (String × ℚ × ℚ))
      (rxns0 : List Reaction),
      rxns.map Reaction.id = rxns0.map Reaction.id →
      (rxns0.map Reaction.id).Nodup →
      applyUndo stack rxns = rxns0 →
      applyUndo (ids.foldl widenStep (rxns, stack)).2
        (ids.foldl widenStep (rxns, stack)).1 = rxns0 := by
  induction ids with
  | nil =>
    intro rxns stack rxns0 _ _ h
    simpa using h
  | cons rid t ih =>
    intro rxns stack rxns0 hid hnd hrest
    rw [List.foldl_cons]
    cases hfb : boundsOf rxns rid with
    | none =>
      have hstep : widenStep (rxns, stack) rid = (rxns, stack) := by
        unfold widenStep
        rw [hfb]
      rw [hstep]
      exact ih rxns stack rxns0 hid hnd hrest
    | some p =>
      have hstep : widenStep (rxns, stack) rid =
          (setRxnBounds rxns rid (-1000) 1000, (rid, p) :: stack) := by
        unfold widenStep
        rw [hfb]
      rw [hstep]
      apply ih
      · rw [setRxnBounds_map_id]
        exact hid
      · exact hnd
      · show applyUndo stack
          (setRxnBounds (setRxnBounds rxns rid (-1000) 1000) rid p.1 p.2) =
            rxns0
        rw [set_set_restore rxns rid (-1000) 1000 p.1 p.2
          (by rw [hid]; exact hnd) (by rw [hfb])]
        exact hrest

/-- C4: for every model with unique reaction identifiers, the model state
after `test_biomass_precursors_open_production` equals the state before it —
in particular every exchange reaction carries its original bounds — whether
the body of the scoped block returned normally or raised, and whatever
the final assertion decided. -/
theorem C4_bounds_restored (m : Model) (rid : String)
    (blockedOf : Model → String → Except String (List String))
    (hnd : (m.reactions.map Reaction.id).Nodup) :
    (openProductionCheck m rid blockedOf).1 = m := by
  have h := foldl_widen_restore (m.exchanges.map Reaction.id)
    m.reactions [] m.reactions rfl hnd rfl
  simp only [openProductionCheck]
  rw [h]

def c4met : Metabolite := ⟨"w_e", none, 'e', 0⟩
def c4ex : Reaction := ⟨"EX_w", [(c4met, -1)], 0, 1000⟩
def c4bio : Reaction := ⟨"BIOMASS_c4", [(c4met, -1)], 0, 1000⟩

def c4Model : Model :=
  ⟨some "c4", [c4ex, c4bio], [c4met], [], ["EX_w"], fun _ => 0⟩

/-- C4 witness: the bounds are restored on a concrete model even when the body
of the scoped block raises. -/
theorem C4_bounds_restored_witness :
    (openProductionCheck c4Model "BIOMASS_c4"
        fun _ _ => Except.error "body raised").1 = c4Model :=
  C4_bounds_restored c4Model "BIOMASS_c4" (fun _ _ => Except.error "body raised")
    (by decide)

/- ------------------------------------------------------------------ -/
/- C6: blocked biomass precursors under complete versus default medium
   (test_biomass.py lines 91-127) -/

/-- Net stoichiometric coefficient of the metabolite with the given id in a
reaction. -/
def stoichOf (r : Reaction) (metId : String) : ℚ :=
  ((r.mets.filter fun p => decide (p.1.id = metId)).map Prod.snd).sum

/-- The metabolite identifiers occurring in a reaction list. -/
def metIds : List Reaction → List String
  | [] => []
  | r :: t => (r.mets.map fun p => p.1.id) ++ metIds t

/-- Net production rate of a metabolite under a flux assignment (one flux per
reaction index). -/
def balance (rxns : List Reaction) (v : ℕ → ℚ) (metId : String) : ℚ :=
  ((List.range rxns.length).map fun i =>
    stoichOf (rxns.getD i default) metId * v i).sum

/-- Modelled from the spec: FBA feasibility (spec glossary, "linear
optimization over reaction fluxes subject to stoichiometric and bound
constraints"): every flux within its reaction's bounds and every metabolite at
steady state. -/
def Feasible (rxns : List Reaction) (v : ℕ → ℚ) : Prop :=
  (∀ i, i < rxns.length →
    (rxns.getD i default).lowerBound ≤ v i ∧
      v i ≤ (rxns.getD i default).upperBound) ∧
  (∀ metId ∈ metIds rxns, balance rxns v metId = 0)

/-- Modelled from the spec: the transient demand reaction through which
`find_blocked_biomass_precursors` forces net production of a precursor
(spec section 4.3, "via a demand/sink reaction"). -/
def demandReaction (met : Metabolite) : Reaction :=
  ⟨"DM_" ++ met.id, [(met, -1)], 0, 1000⟩

/-- Modelled from the spec (section 4.3): a precursor is producible when the
optimization on the model extended with its demand reaction can achieve
positive demand flux. -/
def Producible (rxns : List Reaction) (met : Metabolite) : Prop :=
  ∃ v : ℕ → ℚ, Feasible (rxns ++ [demandReaction met]) v ∧ 0 < v rxns.length

/-- The precursors of a biomass reaction: its consumed metabolites
(negative coefficient, spec section 4.3). -/
def biomassPrecursors (r : Reaction) : List Metabolite :=
  (r.mets.filter fun p => decide (p.2 < 0)).map Prod.fst

/-- Modelled from the spec: membership in the result of
`find_blocked_biomass_precursors` (memote.support.biomass, absent from src/):
a consumed metabolite of the biomass reaction whose transiently required net
production cannot achieve positive flux. -/
def BlockedPrecursor (rxns : List Reaction) (biomass : Reaction)
    (met : Metabolite) : Prop :=
  met ∈ biomassPrecursors biomass ∧ ¬ Producible rxns met

/-- The widening applied to a single reaction by the complete-medium loop:
`exchange.bounds = (-1000, 1000)` for reactions reported by the exchange
query (test_biomass.py lines 116-117). -/
def widenRxn (exIds : List String) (r : Reaction) : Reaction :=
  if r.id ∈ exIds then { r with lowerBound := -1000, upperBound := 1000 }
  else r

/-- The complete-medium model: every exchange reaction's bounds set to
(-1000, 1000). -/
def widenExchanges (m : Model) : Model :=
  { m with reactions := m.reactions.map (widenRxn m.exchangeIds) }

lemma widenRxn_mets (exIds : List String) (r : Reaction) :
    (widenRxn exIds r).mets = r.mets := by
  unfold widenRxn
  split <;> rfl

lemma stoichOf_widenRxn (exIds : List String) (r : Reaction) (metId : String) :
    stoichOf (widenRxn exIds r) metId = stoichOf r metId := by
  unfold stoichOf
  rw [widenRxn_mets]

lemma getD_map_of_lt {α β : Type} (f : α → β) (l : List α) (i : ℕ)
    (d : α) (d2 : β) (h : i < l.length) :
    (l.map f).getD i d2 = f (l.getD i d) := by
  rw [List.getD_eq_getElem (l.map f) d2 (by simpa using h),
    List.getElem_map, List.getD_eq_getElem l d h]

lemma metIds_append (a b : List Reaction) :
    metIds (a ++ b) = metIds a ++ metIds b := by
  induction a with
  | nil => rfl
  | cons r t ih => simp [metIds, ih]

lemma metIds_map_mets (f : Reaction → Reaction)
    (hf : ∀ r, (f r).mets = r.mets) (l : List Reaction) :
    metIds (l.map f) = metIds l := by
  induction l with
  | nil => rfl
  | cons r t ih => simp [metIds, hf, ih]

lemma widened_length (m : Model) :
    (widenExchanges m).reactions.length = m.reactions.length := by
  simp [widenExchanges]

/-- Each position of the widened list carries the same stoichiometry as the
corresponding position of the original list. -/
lemma widen_getD_mets (m : Model) (d : Reaction) (i : ℕ) :
    (((widenExchanges m).reactions ++ [d]).getD i default).mets =
      ((m.reactions ++ [d]).getD i default).mets := by
  rcases Nat.lt_or_ge i m.reactions.length with hlt | hge
  · rw [List.getD_append _ _ _ _ (by rw [widened_length]; exact hlt),
      List.getD_append _ _ _ _ hlt,
      show (widenExchanges m).reactions =
        m.reactions.map (widenRxn m.exchangeIds) from rfl,
      getD_map_of_lt _ _ _ default _ hlt, widenRxn_mets]
  · rcases Nat.lt_or_ge i (m.reactions.length + 1) with hlt2 | hge2
    · have he : i = m.reactions.length := by omega
      subst he
      rw [List.getD_append_right _ _ _ _ (by rw [widened_length]),
        List.getD_append_right _ _ _ _ le_rfl, widened_length]
    · rw [List.getD_eq_default, List.getD_eq_default]
      · simpa using hge2
      · simpa [widened_length] using hge2

lemma balance_widen (m : Model) (d : Reaction) (v : ℕ → ℚ) (metId : String) :
    balance ((widenExchanges m).reactions ++ [d]) v metId =
      balance (m.reactions ++ [d]) v metId := by
  unfold balance
  rw [show ((widenExchanges m).reactions ++ [d]).length =
    (m.reactions ++ [d]).length by simp [widened_length]]
  apply congrArg List.sum
  apply List.map_congr_left
  intro i _
  unfold stoichOf
  rw [widen_getD_mets]

/-- C6 amended: provided every exchange reaction's default bounds already lie
within [-1000, 1000] (so that the complete-medium widening is a relaxation),
every precursor blocked under complete medium is blocked under default medium:
the complete-medium blocked set is a subset of the default-medium one. -/
theorem C6_amended_subset (m : Model) (biomass : Reaction) (met : Metabolite)
    (hex : ∀ r ∈ m.reactions, r.id ∈ m.exchangeIds →
      -1000 ≤ r.lowerBound ∧ r.upperBound ≤ 1000) :
    BlockedPrecursor (widenExchanges m).reactions biomass met →
    BlockedPrecursor m.reactions biomass met := by
  rintro ⟨hmem, hnp⟩
  refine ⟨hmem, fun hp => hnp ?_⟩
  obtain ⟨v, ⟨hbnd, hbal⟩, hpos⟩ := hp
  refine ⟨v, ⟨?_, ?_⟩, ?_⟩
  · intro i hi
    rcases Nat.lt_or_ge i m.reactions.length with hlt | hge
    · have e1 : ((widenExchanges m).reactions ++ [demandReaction met]).getD
          i default =
          widenRxn m.exchangeIds (m.reactions.getD i default) := by
        rw [List.getD_append _ _ _ _ (by rw [widened_length]; exact hlt),
          show (widenExchanges m).reactions =
            m.reactions.map (widenRxn m.exchangeIds) from rfl,
          getD_map_of_lt _ _ _ default _ hlt]
      have horig := hbnd i (by simp; omega)
      rw [List.getD_append _ _ _ _ hlt] at horig
      rw [e1]
      by_cases hm : (m.reactions.getD i default).id ∈ m.exchangeIds
      · have hrmem : m.reactions.getD i default ∈ m.reactions := by
          rw [List.getD_eq_getElem _ _ hlt]
          exact List.getElem_mem _
        have hb := hex _ hrmem hm
        unfold widenRxn
        rw [if_pos hm]
        constructor
        · show (-1000 : ℚ) ≤ v i
          linarith [horig.1, hb.1]
        · show v i ≤ (1000 : ℚ)
          linarith [horig.2, hb.2]
      · unfold widenRxn
        rw [if_neg hm]
        exact horig
    · have he : i = m.reactions.length := by
        simp [widened_length] at hi
        omega
      subst he
      have horig := hbnd m.reactions.length (by simp)
      rw [List.getD_append_right _ _ _ _ le_rfl] at horig
      rw [List.getD_append_right _ _ _ _ (by rw [widened_length]),
        widened_length]
      exact horig
  · intro metId hmid
    rw [balance_widen]
    apply hbal
    rw [metIds_append] at hmid ⊢
    rw [show (widenExchanges m).reactions =
        m.reactions.map (widenRxn m.exchangeIds) from rfl,
      metIds_map_mets (widenRxn m.exchangeIds) (widenRxn_mets _)] at hmid
    exact hmid
  · rw [widened_length]
    exact hpos

/- C6 counterexample model: the forced internal conversion NGAM_c6 demands a
flux of at least 1500, which the default exchange bounds (magnitude 2000)
can supply, but the complete-medium "widening" to (-1000, 1000) cannot:
on this model the complete medium is more restrictive than the default one. -/

def c6s_e : Metabolite := ⟨"s_e", none, 'e', 0⟩
def c6s_c : Metabolite := ⟨"s_c", none, 'c', 0⟩
def c6b_c : Metabolite := ⟨"b_c", none, 'c', 0⟩
def c6b_e : Metabolite := ⟨"b_e", none, 'e', 0⟩

def c6EXs : Reaction := ⟨"EX_s", [(c6s_e, -1)], -2000, 0⟩
def c6Ts : Reaction := ⟨"T_s", [(c6s_e, -1), (c6s_c, 1)], -2000, 2000⟩
def c6F : Reaction := ⟨"NGAM_c6", [(c6s_c, -1), (c6b_c, 1)], 1500, 2000⟩
def c6Tb : Reaction := ⟨"T_b", [(c6b_c, -1), (c6b_e, 1)], -2000, 2000⟩
def c6EXb : Reaction := ⟨"EX_b", [(c6b_e, -1)], 0, 2000⟩
def c6Bio : Reaction := ⟨"BIOMASS_c6", [(c6s_c, -1), (c6b_c, 1)], 0, 1000⟩

def c6Model : Model :=
  ⟨some "c6", [c6EXs, c6Ts, c6F, c6Tb, c6EXb, c6Bio],
   [c6s_e, c6s_c, c6b_c, c6b_e], [], ["EX_s", "EX_b"], fun _ => 0⟩

lemma c6_balance_se (v : ℕ → ℚ) :
    balance (c6Model.reactions ++ [demandReaction c6s_c]) v "s_e" =
      -(v 0) - v 1 := by
  unfold balance
  rw [show (c6Model.reactions ++ [demandReaction c6s_c]).length = 7 from rfl,
    show List.range 7 = [0, 1, 2, 3, 4, 5, 6] from by decide]
  simp only [List.map_cons, List.map_nil, List.sum_cons, List.sum_nil]
  rw [show (c6Model.reactions ++ [demandReaction c6s_c]).getD 0 default =
      c6EXs from rfl,
    show (c6Model.reactions ++ [demandReaction c6s_c]).getD 1 default =
      c6Ts from rfl,
    show (c6Model.reactions ++ [demandReaction c6s_c]).getD 2 default =
      c6F from rfl,
    show (c6Model.reactions ++ [demandReaction c6s_c]).getD 3 default =
      c6Tb from rfl,
    show (c6Model.reactions ++ [demandReaction c6s_c]).getD 4 default =
      c6EXb from rfl,
    show (c6Model.reactions ++ [demandReaction c6s_c]).getD 5 default =
      c6Bio from rfl,
    show (c6Model.reactions ++ [demandReaction c6s_c]).getD 6 default =
      demandReaction c6s_c from rfl]
  simp +decide [stoichOf, c6EXs, c6Ts, c6F, c6Tb, c6EXb, c6Bio,
    demandReaction, c6s_e, c6s_c, c6b_c, c6b_e]
  ring

lemma c6_balance_sc (v : ℕ → ℚ) :
    balance (c6Model.reactions ++ [demandReaction c6s_c]) v "s_c" =
      v 1 - v 2 - v 5 - v 6 := by
  unfold balance
  rw [show (c6Model.reactions ++ [demandReaction c6s_c]).length = 7 from rfl,
    show List.range 7 = [0, 1, 2, 3, 4, 5, 6] from by decide]
  simp only [List.map_cons, List.map_nil, List.sum_cons, List.sum_nil]
  rw [show (c6Model.reactions ++ [demandReaction c6s_c]).getD 0 default =
      c6EXs from rfl,
    show (c6Model.reactions ++ [demandReaction c6s_c]).getD 1 default =
      c6Ts from rfl,
    show (c6Model.reactions ++ [demandReaction c6s_c]).getD 2 default =
      c6F from rfl,
    show (c6Model.reactions ++ [demandReaction c6s_c]).getD 3 default =
      c6Tb from rfl,
    show (c6Model.reactions ++ [demandReaction c6s_c]).getD 4 default =
      c6EXb from rfl,
    show (c6Model.reactions ++ [demandReaction c6s_c]).getD 5 default =
      c6Bio from rfl,
    show (c6Model.reactions ++ [demandReaction c6s_c]).getD 6 default =
      demandReaction c6s_c from rfl]
  simp +decide [stoichOf, c6EXs, c6Ts, c6F, c6Tb, c6EXb, c6Bio,
    demandReaction, c6s_e, c6s_c, c6b_c, c6b_e]
  ring

lemma c6_balance_bc (v : ℕ → ℚ) :
    balance (c6Model.reactions ++ [demandReaction c6s_c]) v "b_c" =
      v 2 - v 3 + v 5 := by
  unfold balance
  rw [show (c6Model.reactions ++ [demandReaction c6s_c]).length = 7 from rfl,
    show List.range 7 = [0, 1, 2, 3, 4, 5, 6] from by decide]
  simp only [List.map_cons, List.map_nil, List.sum_cons, List.sum_nil]
  rw [show (c6Model.reactions ++ [demandReaction c6s_c]).getD 0 default =
      c6EXs from rfl,
    show (c6Model.reactions ++ [demandReaction c6s_c]).getD 1 default =
      c6Ts from rfl,
    show (c6Model.reactions ++ [demandReaction c6s_c]).getD 2 default =
      c6F from rfl,
    show (c6Model.reactions ++ [demandReaction c6s_c]).getD 3 default =
      c6Tb from rfl,
    show (c6Model.reactions ++ [demandReaction c6s_c]).getD 4 default =
      c6EXb from rfl,
    show (c6Model.reactions ++ [demandReaction c6s_c]).getD 5 default =
      c6Bio from rfl,
    show (c6Model.reactions ++ [demandReaction c6s_c]).getD 6 default =
      demandReaction c6s_c from rfl]
  simp +decide [stoichOf, c6EXs, c6Ts, c6F, c6Tb, c6EXb, c6Bio,
    demandReaction, c6s_e, c6s_c, c6b_c, c6b_e]
  ring

lemma c6_balance_be (v : ℕ → ℚ) :
    balance (c6Model.reactions ++ [demandReaction c6s_c]) v "b_e" =
      v 3 - v 4 := by
  unfold balance
  rw [show (c6Model.reactions ++ [demandReaction c6s_c]).length = 7 from rfl,
    show List.range 7 = [0, 1, 2, 3, 4, 5, 6] from by decide]
  simp only [List.map_cons, List.map_nil, List.sum_cons, List.sum_nil]
  rw [show (c6Model.reactions ++ [demandReaction c6s_c]).getD 0 default =
      c6EXs from rfl,
    show (c6Model.reactions ++ [demandReaction c6s_c]).getD 1 default =
      c6Ts from rfl,
    show (c6Model.reactions ++ [demandReaction c6s_c]).getD 2 default =
      c6F from rfl,
    show (c6Model.reactions ++ [demandReaction c6s_c]).getD 3 default =
      c6Tb from rfl,
    show (c6Model.reactions ++ [demandReaction c6s_c]).getD 4 default =
      c6EXb from rfl,
    show (c6Model.reactions ++ [demandReaction c6s_c]).getD 5 default =
      c6Bio from rfl,
    show (c6Model.reactions ++ [demandReaction c6s_c]).getD 6 default =
      demandReaction c6s_c from rfl]
  simp +decide [stoichOf, c6EXs, c6Ts, c6F, c6Tb, c6EXb, c6Bio,
    demandReaction, c6s_e, c6s_c, c6b_c, c6b_e]
  ring

/-- A feasible default-medium flux distribution producing the precursor:
uptake 1501 of s, convert 1500 through the forced reaction and secrete it,
convert 1 to the demanded precursor. -/
def c6Flux : ℕ → ℚ
  | 0 => -1501
  | 1 => 1501
  | 2 => 1500
  | 3 => 1500
  | 4 => 1500
  | 5 => 0
  | 6 => 1
  | _ => 0

lemma c6_default_producible : Producible c6Model.reactions c6s_c := by
  refine ⟨c6Flux, ⟨?_, ?_⟩, ?_⟩
  · intro i hi
    rw [show (c6Model.reactions ++ [demandReaction c6s_c]).length = 7
      from rfl] at hi
    interval_cases i
    · exact ⟨(by norm_num : (-2000 : ℚ) ≤ -1501), (by norm_num : (-1501 : ℚ) ≤ 0)⟩
    · exact ⟨(by norm_num : (-2000 : ℚ) ≤ 1501), (by norm_num : (1501 : ℚ) ≤ 2000)⟩
    · exact ⟨(by norm_num : (1500 : ℚ) ≤ 1500), (by norm_num : (1500 : ℚ) ≤ 2000)⟩
    · exact ⟨(by norm_num : (-2000 : ℚ) ≤ 1500), (by norm_num : (1500 : ℚ) ≤ 2000)⟩
    · exact ⟨(by norm_num : (0 : ℚ) ≤ 1500), (by norm_num : (1500 : ℚ) ≤ 2000)⟩
    · exact ⟨(by norm_num : (0 : ℚ) ≤ 0), (by norm_num : (0 : ℚ) ≤ 1000)⟩
    · exact ⟨(by norm_num : (0 : ℚ) ≤ 1), (by norm_num : (1 : ℚ) ≤ 1000)⟩
  · intro x hx
    rw [show metIds (c6Model.reactions ++ [demandReaction c6s_c]) =
      ["s_e", "s_e", "s_c", "s_c", "b_c", "b_c", "b_e", "b_e", "s_c",
        "b_c", "s_c"] from rfl] at hx
    fin_cases hx
    all_goals first
      | (rw [c6_balance_se]; norm_num [c6Flux])
      | (rw [c6_balance_sc]; norm_num [c6Flux])
      | (rw [c6_balance_bc]; norm_num [c6Flux])
      | (rw [c6_balance_be]; norm_num [c6Flux])
  · rw [show c6Flux c6Model.reactions.length = 1 from rfl]
    norm_num

lemma c6_complete_not_producible :
    ¬ Producible (widenExchanges c6Model).reactions c6s_c := by
  rintro ⟨v, ⟨hbnd, hbal⟩, -⟩
  have hbc := hbal "b_c" (by decide)
  have hbe := hbal "b_e" (by decide)
  rw [balance_widen, c6_balance_bc] at hbc
  rw [balance_widen, c6_balance_be] at hbe
  have h2 := hbnd 2 (by decide)
  have h4 := hbnd 4 (by decide)
  have h5 := hbnd 5 (by decide)
  have h2l : (1500 : ℚ) ≤ v 2 := h2.1
  have h4u : v 4 ≤ (1000 : ℚ) := h4.2
  have h5l : (0 : ℚ) ≤ v 5 := h5.1
  linarith

/-- Under the complete medium the precursor is blocked on this model. -/
lemma c6_complete_blocked :
    BlockedPrecursor (widenExchanges c6Model).reactions c6Bio c6s_c :=
  ⟨by decide, c6_complete_not_producible⟩

/-- C6 counterexample: on a model with an exchange reaction whose default
bounds exceed magnitude 1000 and a forced internal flux of 1500, the precursor
s_c is blocked under complete medium but producible under default medium, so
the complete-medium blocked set is not a subset of the default-medium one. -/
theorem C6_counterexample :
    ¬ (∀ met : Metabolite,
        BlockedPrecursor (widenExchanges c6Model).reactions c6Bio met →
        BlockedPrecursor c6Model.reactions c6Bio met) := by
  intro h
  exact (h c6s_c c6_complete_blocked).2 c6_default_producible

/- C6 amended witness model: a biomass precursor with no producing reaction
at all, blocked under every medium. -/

def c6w_p : Metabolite := ⟨"p_c", none, 'c', 0⟩
def c6wBio : Reaction := ⟨"BIOMASS_w", [(c6w_p, -1)], 0, 1000⟩

def c6wModel : Model := ⟨some "c6w", [c6wBio], [c6w_p], [], [], fun _ => 0⟩

lemma c6w_balance_p (v : ℕ → ℚ) :
    balance ((widenExchanges c6wModel).reactions ++ [demandReaction c6w_p])
        v "p_c" =
      -(v 0) - v 1 := by
  unfold balance
  rw [show ((widenExchanges c6wModel).reactions ++
      [demandReaction c6w_p]).length = 2 from rfl,
    show List.range 2 = [0, 1] from by decide]
  simp only [List.map_cons, List.map_nil, List.sum_cons, List.sum_nil]
  rw [show ((widenExchanges c6wModel).reactions ++
      [demandReaction c6w_p]).getD 0 default = c6wBio from rfl,
    show ((widenExchanges c6wModel).reactions ++
      [demandReaction c6w_p]).getD 1 default = demandReaction c6w_p from rfl]
  simp +decide [stoichOf, c6wBio, demandReaction, c6w_p]
  ring

/-- C6 amended witness: on a model whose exchange bounds (vacuously) lie
within [-1000, 1000] and whose precursor is blocked under complete medium, the
amended subset theorem yields that it is blocked under default medium. -/
theorem C6_amended_subset_witness :
    BlockedPrecursor c6wModel.reactions c6wBio c6w_p := by
  refine C6_amended_subset c6wModel c6wBio c6w_p ?_ ?_
  · intro r _ hmem
    simp [c6wModel] at hmem
  · refine ⟨by decide, ?_⟩
    rintro ⟨v, ⟨hbnd, hbal⟩, hpos⟩
    have hp := hbal "p_c" (by decide)
    rw [c6w_balance_p] at hp
    have h0 := hbnd 0 (by decide)
    have h0l : (0 : ℚ) ≤ v 0 := h0.1
    have hpos' : (0 : ℚ) < v 1 := hpos
    linarith
